import Mathlib

/-!
# Verification of the Walkie-talkie firmware core

Shallow embedding of the C sources (packet framing codec, audio ring
buffer, device-id derivation, dial manager) together with proofs of the
specification claims.  Bytes are modelled as `Nat` values `< 256`; byte
buffers as `List Nat`; machine-integer overflow is made explicit with
`% 2^w` where the C source performs fixed-width arithmetic.
-/

namespace WalkieTalkie

/-! ## Protocol constants (include/comm/protocol.h, config.h) -/

def PROTOCOL_VERSION : Nat := 1
def MAX_PACKET_SIZE : Nat := 256
/-- `#define PACKET_HEADER_SIZE 12` — NOTE: this constant does *not* equal
`sizeof(packet_header_t)` (which is 16 for the packed struct). -/
def PACKET_HEADER_SIZE : Nat := 12
def DEVICE_ID_LENGTH : Nat := 8
/-- `0x5754`, the "WT" magic, stored little-endian on the wire. -/
def PACKET_MAGIC_VALUE : Nat := 0x5754
/-- `sizeof(packet_header_t)` for the packed struct:
2 (magic) + 1 (version) + 1 (msg_type) + 8 (src_id) + 2 (payload_len) + 2 (checksum). -/
def sizeof_packet_header_t : Nat := 16

/-- Byte accessor for a byte buffer, `buf[i]`. -/
def byteAt (l : List Nat) (i : Nat) : Nat := l.getD i 0

/-! ## CRC16 (CCITT), protocol.c -/

/-- The 256-entry CRC-16/CCITT table from the source. -/
def crc16_table : List Nat := [
  0x0000, 0x1021, 0x2042, 0x3063, 0x4084, 0x50A5, 0x60C6, 0x70E7,
  0x8108, 0x9129, 0xA14A, 0xB16B, 0xC18C, 0xD1AD, 0xE1CE, 0xF1EF,
  0x1231, 0x0210, 0x3273, 0x2252, 0x52B5, 0x4294, 0x72F7, 0x62D6,
  0x9339, 0x8318, 0xB37B, 0xA35A, 0xD3BD, 0xC39C, 0xF3FF, 0xE3DE,
  0x2462, 0x3443, 0x0420, 0x1401, 0x64E6, 0x74C7, 0x44A4, 0x5485,
  0xA56A, 0xB54B, 0x8528, 0x9509, 0xE5EE, 0xF5CF, 0xC5AC, 0xD58D,
  0x3653, 0x2672, 0x1611, 0x0630, 0x76D7, 0x66F6, 0x5695, 0x46B4,
  0xB75B, 0xA77A, 0x9719, 0x8738, 0xF7DF, 0xE7FE, 0xD79D, 0xC7BC,
  0x48C4, 0x58E5, 0x6886, 0x78A7, 0x0840, 0x1861, 0x2802, 0x3823,
  0xC9CC, 0xD9ED, 0xE98E, 0xF9AF, 0x8948, 0x9969, 0xA90A, 0xB92B,
  0x5AF5, 0x4AD4, 0x7AB7, 0x6A96, 0x1A71, 0x0A50, 0x3A33, 0x2A12,
  0xDBFD, 0xCBDC, 0xFBBF, 0xEB9E, 0x9B79, 0x8B58, 0xBB3B, 0xAB1A,
  0x6CA6, 0x7C87, 0x4CE4, 0x5CC5, 0x2C22, 0x3C03, 0x0C60, 0x1C41,
  0xEDAE, 0xFD8F, 0xCDEC, 0xDDCD, 0xAD2A, 0xBD0B, 0x8D68, 0x9D49,
  0x7E97, 0x6EB6, 0x5ED5, 0x4EF4, 0x3E13, 0x2E32, 0x1E51, 0x0E70,
  0xFF9F, 0xEFBE, 0xDFDD, 0xCFFC, 0xBF1B, 0xAF3A, 0x9F59, 0x8F78,
  0x9188, 0x81A9, 0xB1CA, 0xA1EB, 0xD10C, 0xC12D, 0xF14E, 0xE16F,
  0x1080, 0x00A1, 0x30C2, 0x20E3, 0x5004, 0x4025, 0x7046, 0x6067,
  0x83B9, 0x9398, 0xA3FB, 0xB3DA, 0xC33D, 0xD31C, 0xE37F, 0xF35E,
  0x02B1, 0x1290, 0x22F3, 0x32D2, 0x4235, 0x5214, 0x6277, 0x7256,
  0xB5EA, 0xA5CB, 0x95A8, 0x8589, 0xF56E, 0xE54F, 0xD52C, 0xC50D,
  0x34E2, 0x24C3, 0x14A0, 0x0481, 0x7466, 0x6447, 0x5424, 0x4405,
  0xA7DB, 0xB7FA, 0x8799, 0x97B8, 0xE75F, 0xF77E, 0xC71D, 0xD73C,
  0x26D3, 0x36F2, 0x0691, 0x16B0, 0x6657, 0x7676, 0x4615, 0x5634,
  0xD94C, 0xC96D, 0xF90E, 0xE92F, 0x99C8, 0x89E9, 0xB98A, 0xA9AB,
  0x5844, 0x4865, 0x7806, 0x6827, 0x18C0, 0x08E1, 0x3882, 0x28A3,
  0xCB7D, 0xDB5C, 0xEB3F, 0xFB1E, 0x8BF9, 0x9BD8, 0xABBB, 0xBB9A,
  0x4A75, 0x5A54, 0x6A37, 0x7A16, 0x0AF1, 0x1AD0, 0x2AB3, 0x3A92,
  0xFD2E, 0xED0F, 0xDD6C, 0xCD4D, 0xBDAA, 0xAD8B, 0x9DE8, 0x8DC9,
  0x7C26, 0x6C07, 0x5C64, 0x4C45, 0x3CA2, 0x2C83, 0x1CE0, 0x0CC1,
  0xEF1F, 0xFF3E, 0xCF5D, 0xDF7C, 0xAF9B, 0xBFBA, 0x8FD9, 0x9FF8,
  0x6E17, 0x7E36, 0x4E55, 0x5E74, 0x2E93, 0x3EB2, 0x0ED1, 0x1EF0
]

/-- One step of the loop body:
`crc = (crc << 8) ^ crc16_table[((crc >> 8) ^ *data++) & 0xFF]`,
with the assignment truncating to `uint16_t`. -/
def crc16_step (crc b : Nat) : Nat :=
  ((crc <<< 8) ^^^ crc16_table.getD (((crc >>> 8) ^^^ b) % 256) 0) % 65536

/-- `protocol_crc16`: CRC over a byte buffer, initial value `0xFFFF`. -/
def protocol_crc16 (data : List Nat) : Nat := data.foldl crc16_step 0xFFFF

/-! ## Packet header and framing codec (protocol.c) -/

/-- `packet_header_t` (packed): magic, version, msg_type, src_id[8],
payload_len, checksum. -/
structure packet_header_t where
  magic : Nat
  version : Nat
  msg_type : Nat
  src_id : List Nat
  payload_len : Nat
  checksum : Nat
deriving DecidableEq

/-- `protocol_build_packet(msg_type, src_id, payload, payload_len, out_buffer)`.
Returns the written buffer together with the returned total length
`sizeof(packet_header_t) + payload_len`.  The payload length is clamped to
`MAX_PACKET_SIZE - PACKET_HEADER_SIZE` (= 244) exactly as in the source. -/
def protocol_build_packet (msg_type : Nat) (src_id : List Nat)
    (payload : List Nat) (payload_len : Nat) : List Nat × Nat :=
  let plen := if MAX_PACKET_SIZE - PACKET_HEADER_SIZE < payload_len
              then MAX_PACKET_SIZE - PACKET_HEADER_SIZE else payload_len
  let src := src_id.take DEVICE_ID_LENGTH
  let body := payload.take plen
  -- header with checksum field zeroed, then the payload
  let packet0 := [0x54, 0x57, PROTOCOL_VERSION, msg_type % 256] ++ src
                 ++ [plen % 256, plen / 256 % 256, 0, 0] ++ body
  let crc := protocol_crc16 packet0
  -- checksum written into bytes 14..15 (little-endian)
  let packet := [0x54, 0x57, PROTOCOL_VERSION, msg_type % 256] ++ src
                ++ [plen % 256, plen / 256 % 256, crc % 256, crc / 256 % 256] ++ body
  (packet, sizeof_packet_header_t + plen)

/-- `protocol_parse_packet(buffer, buffer_len, out_header, out_payload)`.
The 16-byte packed header is read field-by-field (little-endian);
a buffer shorter than `sizeof(packet_header_t)` is rejected, as are bad
magic, bad version, a declared payload length that exceeds the remaining
buffer, and a CRC mismatch (CRC recomputed with the checksum field zeroed).
On success the header copy and the payload view are returned. -/
def protocol_parse_packet (buffer : List Nat) :
    Option (packet_header_t × List Nat) :=
  match buffer with
  | b0 :: b1 :: b2 :: b3 :: s0 :: s1 :: s2 :: s3 :: s4 :: s5 :: s6 :: s7 ::
    l0 :: l1 :: c0 :: c1 :: rest =>
    let magic := b0 + 256 * b1
    let version := b2
    let msg_type := b3
    let src_id := [s0, s1, s2, s3, s4, s5, s6, s7]
    let payload_len := l0 + 256 * l1
    let checksum := c0 + 256 * c1
    if magic ≠ PACKET_MAGIC_VALUE then none
    else if version ≠ PROTOCOL_VERSION then none
    -- buffer_len < sizeof(packet_header_t) + payload_len  (buffer_len = 16 + rest.length)
    else if 16 + rest.length < 16 + payload_len then none
    else
      let zeroed := [b0, b1, b2, b3, s0, s1, s2, s3, s4, s5, s6, s7, l0, l1, 0, 0]
                    ++ rest.take payload_len
      let calc_crc := protocol_crc16 zeroed
      if calc_crc ≠ checksum then none
      else some (⟨magic, version, msg_type, src_id, payload_len, checksum⟩,
                 rest.take payload_len)
  | _ => none  -- buffer_len < sizeof(packet_header_t)


/-! ## Basic facts about the CRC -/

lemma crc16_step_lt (crc b : Nat) : crc16_step crc b < 65536 :=
  Nat.mod_lt _ (by norm_num)

lemma foldl_crc16_step_lt : ∀ (l : List Nat) (acc : Nat), acc < 65536 →
    l.foldl crc16_step acc < 65536
  | [], _, h => h
  | b :: l, acc, _ => foldl_crc16_step_lt l _ (crc16_step_lt acc b)

lemma protocol_crc16_lt (data : List Nat) : protocol_crc16 data < 65536 :=
  foldl_crc16_step_lt data 0xFFFF (by norm_num)

lemma exists_eight (s : List Nat) (hs : s.length = 8) :
    ∃ a0 a1 a2 a3 a4 a5 a6 a7, s = [a0, a1, a2, a3, a4, a5, a6, a7] := by
  rcases s with _ | ⟨a0, s⟩; · simp at hs
  rcases s with _ | ⟨a1, s⟩; · simp at hs
  rcases s with _ | ⟨a2, s⟩; · simp at hs
  rcases s with _ | ⟨a3, s⟩; · simp at hs
  rcases s with _ | ⟨a4, s⟩; · simp at hs
  rcases s with _ | ⟨a5, s⟩; · simp at hs
  rcases s with _ | ⟨a6, s⟩; · simp at hs
  rcases s with _ | ⟨a7, s⟩; · simp at hs
  rcases s with _ | ⟨a8, s⟩
  · exact ⟨a0, a1, a2, a3, a4, a5, a6, a7, rfl⟩
  · simp at hs

/-- On un-clamped inputs the built packet is the 16-byte header followed by
the payload, with the CRC of the checksum-zeroed packet in bytes 14..15. -/
lemma protocol_build_packet_eq (m : Nat) (s p : List Nat)
    (hm : m < 256) (hs : s.length = 8) (hp : p.length ≤ 244) :
    protocol_build_packet m s p p.length =
      (([0x54, 0x57, 1, m] ++ s
        ++ [p.length, 0,
            protocol_crc16 ([0x54, 0x57, 1, m] ++ s ++ [p.length, 0, 0, 0] ++ p) % 256,
            protocol_crc16 ([0x54, 0x57, 1, m] ++ s ++ [p.length, 0, 0, 0] ++ p) / 256 % 256]
        ++ p), 16 + p.length) := by
  have h1 : ¬ (MAX_PACKET_SIZE - PACKET_HEADER_SIZE < p.length) := by
    simp only [MAX_PACKET_SIZE, PACKET_HEADER_SIZE]; omega
  have h2 : m % 256 = m := Nat.mod_eq_of_lt hm
  have h3 : p.length % 256 = p.length := Nat.mod_eq_of_lt (by omega)
  have h4 : p.length / 256 % 256 = 0 := by rw [Nat.div_eq_of_lt (by omega)]
  have h5 : s.take DEVICE_ID_LENGTH = s := by
    rw [DEVICE_ID_LENGTH, ← hs, List.take_length]
  simp only [protocol_build_packet, PROTOCOL_VERSION, h1, if_false, h2, h3, h4, h5,
    List.take_length, sizeof_packet_header_t]

/-- C1 (Framing round-trip): for every message type byte, every 8-byte source
id and every payload accepted by the builder (length ≤ 244),
`protocol_parse_packet` applied to the buffer written by
`protocol_build_packet` (with the returned length) succeeds, and the header
fields and payload view reproduce the inputs. -/
theorem protocol_parse_build_roundtrip (msg_type : Nat) (src_id payload : List Nat)
    (hm : msg_type < 256) (hs : src_id.length = 8)
    (hp : payload.length ≤ MAX_PACKET_SIZE - PACKET_HEADER_SIZE) :
    ∃ hdr payload_view,
      protocol_parse_packet
        (protocol_build_packet msg_type src_id payload payload.length).1
        = some (hdr, payload_view) ∧
      hdr.magic = PACKET_MAGIC_VALUE ∧ hdr.version = PROTOCOL_VERSION ∧
      hdr.msg_type = msg_type ∧ hdr.src_id = src_id ∧
      hdr.payload_len = payload.length ∧ payload_view = payload := by
  have hp' : payload.length ≤ 244 := by
    simpa [MAX_PACKET_SIZE, PACKET_HEADER_SIZE] using hp
  obtain ⟨a0, a1, a2, a3, a4, a5, a6, a7, rfl⟩ := exists_eight src_id hs
  rw [protocol_build_packet_eq msg_type _ payload hm hs hp']
  set C := protocol_crc16 ([0x54, 0x57, 1, msg_type]
    ++ [a0, a1, a2, a3, a4, a5, a6, a7] ++ [payload.length, 0, 0, 0] ++ payload) with hC
  have hClt : C < 65536 := protocol_crc16_lt _
  refine ⟨⟨0x5754, 1, msg_type, [a0, a1, a2, a3, a4, a5, a6, a7], payload.length,
      C % 256 + 256 * (C / 256 % 256)⟩, payload, ?_, rfl, rfl, rfl, rfl, rfl, rfl⟩
  simp only [List.cons_append, List.nil_append, protocol_parse_packet]
  rw [if_neg (by simp [PACKET_MAGIC_VALUE]), if_neg (by simp [PROTOCOL_VERSION])]
  simp only [Nat.mul_zero, Nat.add_zero, List.take_length, lt_self_iff_false,
    if_false, List.cons_append, List.nil_append]
  simp only [List.cons_append, List.nil_append] at hC
  rw [← hC, if_neg (by omega)]


/-- Witness for the framing round-trip at msg_type 0x10, src id "12345678"
(ASCII), payload "87654321" (ASCII). -/
theorem protocol_parse_build_roundtrip_witness :
    (0x10 : Nat) < 256 ∧ ([49, 50, 51, 52, 53, 54, 55, 56] : List Nat).length = 8 ∧
    ([56, 55, 54, 53, 52, 51, 50, 49] : List Nat).length ≤ MAX_PACKET_SIZE - PACKET_HEADER_SIZE ∧
    (∃ hdr payload_view,
      protocol_parse_packet
        (protocol_build_packet 0x10 [49, 50, 51, 52, 53, 54, 55, 56]
          [56, 55, 54, 53, 52, 51, 50, 49]
          ([56, 55, 54, 53, 52, 51, 50, 49] : List Nat).length).1
        = some (hdr, payload_view) ∧
      hdr.magic = PACKET_MAGIC_VALUE ∧ hdr.version = PROTOCOL_VERSION ∧
      hdr.msg_type = 0x10 ∧ hdr.src_id = [49, 50, 51, 52, 53, 54, 55, 56] ∧
      hdr.payload_len = ([56, 55, 54, 53, 52, 51, 50, 49] : List Nat).length ∧
      payload_view = [56, 55, 54, 53, 52, 51, 50, 49]) :=
  ⟨by norm_num, by decide, by decide,
   protocol_parse_build_roundtrip 0x10 _ _ (by norm_num) (by decide) (by decide)⟩

/-- C2 counterexample: a CALL_REQUEST frame built from an 8-character source
id and the 8-byte `call_request_t` payload has total length 24
(= 16-byte packed header + 8), not the claimed 22. -/
theorem call_request_frame_length_is_24_not_22 :
    (protocol_build_packet 0x10 [49, 50, 51, 52, 53, 54, 55, 56]
      [56, 55, 54, 53, 52, 51, 50, 49] 8).2 = 24 ∧
    (protocol_build_packet 0x10 [49, 50, 51, 52, 53, 54, 55, 56]
      [56, 55, 54, 53, 52, 51, 50, 49] 8).2 ≠ 22 := by
  decide

/-- C2 (amended): the CALL_REQUEST frame has total length 24 bytes
(16-byte packed header + 8-byte payload), magic bytes 0x54 0x57 at
offset 0, version 1 at offset 2, msg_type 0x10 at offset 3, and
payload_len 0x0008 little-endian at offsets 12..13. -/
theorem call_request_frame_layout :
    (protocol_build_packet 0x10 [49, 50, 51, 52, 53, 54, 55, 56]
      [56, 55, 54, 53, 52, 51, 50, 49] 8).2 = 24 ∧
    (protocol_build_packet 0x10 [49, 50, 51, 52, 53, 54, 55, 56]
      [56, 55, 54, 53, 52, 51, 50, 49] 8).1.length = 24 ∧
    byteAt (protocol_build_packet 0x10 [49, 50, 51, 52, 53, 54, 55, 56]
      [56, 55, 54, 53, 52, 51, 50, 49] 8).1 0 = 0x54 ∧
    byteAt (protocol_build_packet 0x10 [49, 50, 51, 52, 53, 54, 55, 56]
      [56, 55, 54, 53, 52, 51, 50, 49] 8).1 1 = 0x57 ∧
    byteAt (protocol_build_packet 0x10 [49, 50, 51, 52, 53, 54, 55, 56]
      [56, 55, 54, 53, 52, 51, 50, 49] 8).1 2 = 1 ∧
    byteAt (protocol_build_packet 0x10 [49, 50, 51, 52, 53, 54, 55, 56]
      [56, 55, 54, 53, 52, 51, 50, 49] 8).1 3 = 0x10 ∧
    byteAt (protocol_build_packet 0x10 [49, 50, 51, 52, 53, 54, 55, 56]
      [56, 55, 54, 53, 52, 51, 50, 49] 8).1 12 = 0x08 ∧
    byteAt (protocol_build_packet 0x10 [49, 50, 51, 52, 53, 54, 55, 56]
      [56, 55, 54, 53, 52, 51, 50, 49] 8).1 13 = 0x00 := by
  decide

set_option maxRecDepth 10000 in
/-- C3: with a 244-byte payload the clamp `payload_len > MAX_PACKET_SIZE -
PACKET_HEADER_SIZE` (= 244, computed from the stale constant 12 instead of
the packed header size 16) does not fire, and the builder writes and
returns a 260-byte packet, exceeding MAX_PACKET_SIZE = 256. -/
theorem build_packet_exceeds_max_packet_size :
    (protocol_build_packet 0x30 [48, 48, 48, 48, 48, 48, 48, 48]
      (List.replicate 244 0) 244).2 = 260 ∧
    (protocol_build_packet 0x30 [48, 48, 48, 48, 48, 48, 48, 48]
      (List.replicate 244 0) 244).1.length = 260 ∧
    MAX_PACKET_SIZE < 260 := by
  decide

set_option maxRecDepth 10000 in
/-- C4: a payload length of 300 is clamped to MAX_PACKET_SIZE -
PACKET_HEADER_SIZE = 244 bytes, and the resulting packet is
16 + 244 = 260 bytes long — greater than MAX_PACKET_SIZE = 256,
overrunning the 256-byte `g_tx_buffer`. -/
theorem build_packet_clamped_still_overflows :
    MAX_PACKET_SIZE - PACKET_HEADER_SIZE = 244 ∧
    (protocol_build_packet 0x30 [48, 48, 48, 48, 48, 48, 48, 48]
      (List.replicate 300 0) 300).2 = 260 ∧
    (protocol_build_packet 0x30 [48, 48, 48, 48, 48, 48, 48, 48]
      (List.replicate 300 0) 300).1.length = 260 ∧
    MAX_PACKET_SIZE < 260 := by
  decide

lemma protocol_parse_packet_short (buffer : List Nat) (h : buffer.length < 16) :
    protocol_parse_packet buffer = none := by
  rcases buffer with _|⟨b0,_|⟨b1,_|⟨b2,_|⟨b3,_|⟨s0,_|⟨s1,_|⟨s2,_|⟨s3,_|⟨s4,_|⟨s5,_|⟨s6,_|⟨s7,_|⟨l0,_|⟨l1,_|⟨c0,_|⟨c1,rest⟩⟩⟩⟩⟩⟩⟩⟩⟩⟩⟩⟩⟩⟩⟩⟩ <;>
    first
      | rfl
      | (exfalso; simp at h; omega)


/-- C5: `protocol_parse_packet` succeeds exactly when the buffer is at least
as long as the packed header, the magic equals 0x5754, the version equals 1,
the declared payload length fits within the buffer after the header, and the
CRC-16 recomputed with the checksum field zeroed equals the received
checksum; in every other case it returns `none` (no header, no payload). -/
theorem protocol_parse_packet_validity (buffer : List Nat) :
    (∃ out, protocol_parse_packet buffer = some out) ↔
      (sizeof_packet_header_t ≤ buffer.length ∧
       byteAt buffer 0 + 256 * byteAt buffer 1 = PACKET_MAGIC_VALUE ∧
       byteAt buffer 2 = PROTOCOL_VERSION ∧
       sizeof_packet_header_t + (byteAt buffer 12 + 256 * byteAt buffer 13) ≤ buffer.length ∧
       protocol_crc16 (buffer.take 14 ++ [0, 0]
         ++ (buffer.drop 16).take (byteAt buffer 12 + 256 * byteAt buffer 13))
         = byteAt buffer 14 + 256 * byteAt buffer 15) := by
  by_cases hshort : buffer.length < 16
  · rw [protocol_parse_packet_short buffer hshort]
    constructor
    · rintro ⟨out, hout⟩
      cases hout
    · rintro ⟨hlen, -⟩
      rw [sizeof_packet_header_t] at hlen
      omega
  · rcases buffer with _|⟨b0,_|⟨b1,_|⟨b2,_|⟨b3,_|⟨s0,_|⟨s1,_|⟨s2,_|⟨s3,_|⟨s4,_|⟨s5,_|⟨s6,_|⟨s7,_|⟨l0,_|⟨l1,_|⟨c0,_|⟨c1,rest⟩⟩⟩⟩⟩⟩⟩⟩⟩⟩⟩⟩⟩⟩⟩⟩ <;>
      try (exfalso; apply hshort; simp; done)
    simp only [protocol_parse_packet, byteAt, sizeof_packet_header_t,
      PACKET_MAGIC_VALUE, PROTOCOL_VERSION,
      List.getD_cons_succ, List.getD_cons_zero,
      List.length_cons,
      List.take_succ_cons, List.take_zero,
      List.drop_succ_cons, List.drop_zero,
      List.cons_append, List.nil_append]
    constructor
    · rintro ⟨out, hout⟩
      split_ifs at hout with h1 h2 h3 h4
      exact ⟨by omega, not_ne_iff.mp h1, not_ne_iff.mp h2, by omega, not_ne_iff.mp h4⟩
    · rintro ⟨-, hmagic, hver, hlen, hcrc⟩
      rw [if_neg (not_ne_iff.mpr hmagic), if_neg (not_ne_iff.mpr hver),
        if_neg (by omega), if_neg (not_ne_iff.mpr hcrc)]
      exact ⟨_, rfl⟩

/-! ## Audio ring buffer (core/audio_buffer.h, audio_buffer.c) -/

def AUDIO_FRAME_SAMPLES : Nat := 160
def AUDIO_FRAME_SIZE : Nat := AUDIO_FRAME_SAMPLES * 2
def AUDIO_BUFFER_FRAMES : Nat := 32

/-- `audio_frame_t`: timestamp, sequence, length, sample bytes, validity. -/
structure audio_frame_t where
  timestamp : Nat
  sequence : Nat
  length : Nat
  samples : List Nat
  valid : Bool
deriving DecidableEq

/-- The all-zero frame (`memset`-cleared slot). -/
def zero_frame : audio_frame_t := ⟨0, 0, 0, [], false⟩

/-- `audio_buffer_stats_t`: monotonic counters (uint32), last uint16 sequence. -/
structure audio_buffer_stats_t where
  frames_written : Nat
  frames_read : Nat
  frames_dropped : Nat
  frames_missed : Nat
  buffer_overruns : Nat
  buffer_underruns : Nat
  max_fill_level : Nat
  last_sequence : Nat
deriving DecidableEq

def zero_stats : audio_buffer_stats_t := ⟨0, 0, 0, 0, 0, 0, 0, 0⟩

/-- `audio_ring_buffer_t`: 32 frame slots, volatile write/read indices,
next sequence number, statistics. -/
structure audio_ring_buffer_t where
  frames : List audio_frame_t
  write_idx : Nat
  read_idx : Nat
  next_sequence : Nat
  stats : audio_buffer_stats_t
deriving DecidableEq

/-- `audio_buffer_init`: zeroed structure, all frames invalid. -/
def audio_buffer_init : audio_ring_buffer_t :=
  ⟨List.replicate AUDIO_BUFFER_FRAMES zero_frame, 0, 0, 0, zero_stats⟩

def audio_buffer_is_empty (b : audio_ring_buffer_t) : Bool :=
  b.write_idx == b.read_idx

def audio_buffer_is_full (b : audio_ring_buffer_t) : Bool :=
  (b.write_idx + 1) % AUDIO_BUFFER_FRAMES == b.read_idx

/-- `audio_buffer_count`.  The C arithmetic is on machine integers; for the
states reachable through this API both indices stay `< 32` (proved below),
where the `Nat` subtractions below agree with the C computation. -/
def audio_buffer_count (b : audio_ring_buffer_t) : Nat :=
  if b.read_idx ≤ b.write_idx then b.write_idx - b.read_idx
  else AUDIO_BUFFER_FRAMES - b.read_idx + b.write_idx

/-- `audio_buffer_write(buffer, samples, length, timestamp)`.  `now` stands
for `GET_MILLIS()` (monotonic clock), passed in explicitly. -/
def audio_buffer_write (b : audio_ring_buffer_t) (samples : List Nat)
    (length timestamp now : Nat) : Bool × audio_ring_buffer_t :=
  let next_write := (b.write_idx + 1) % AUDIO_BUFFER_FRAMES
  if next_write == b.read_idx then
    (false, { b with stats := { b.stats with
        buffer_overruns := (b.stats.buffer_overruns + 1) % 2 ^ 32,
        frames_dropped := (b.stats.frames_dropped + 1) % 2 ^ 32 } })
  else
    let len := if AUDIO_FRAME_SIZE < length then AUDIO_FRAME_SIZE else length
    let fr : audio_frame_t :=
      { sequence := b.next_sequence,
        timestamp := if timestamp ≠ 0 then timestamp else now,
        length := len,
        samples := samples.take len,
        valid := true }
    let current_fill := audio_buffer_count b + 1
    (true, { b with
        frames := b.frames.set b.write_idx fr,
        next_sequence := (b.next_sequence + 1) % 2 ^ 16,
        write_idx := next_write,
        stats := { b.stats with
          frames_written := (b.stats.frames_written + 1) % 2 ^ 32,
          max_fill_level := if b.stats.max_fill_level < current_fill
                            then current_fill else b.stats.max_fill_level } })

/-- `audio_buffer_sequence_gap(expected, received)` (uint16 arguments). -/
def audio_buffer_sequence_gap (expected received : Nat) : Nat :=
  if expected ≤ received then received - expected
  else (0xFFFF - expected) + received + 1

/-- `audio_buffer_write_frame(buffer, frame)`: sequence-gap accounting first
(even when the write is then refused), then the full check and the copy. -/
def audio_buffer_write_frame (b : audio_ring_buffer_t) (fr : audio_frame_t) :
    Bool × audio_ring_buffer_t :=
  let expected_seq := (b.stats.last_sequence + 1) % 2 ^ 16
  let stats1 :=
    if fr.sequence ≠ expected_seq ∧ 0 < b.stats.frames_written then
      { b.stats with
          frames_missed := (b.stats.frames_missed
            + audio_buffer_sequence_gap expected_seq fr.sequence) % 2 ^ 32,
          last_sequence := fr.sequence % 2 ^ 16 }
    else { b.stats with last_sequence := fr.sequence % 2 ^ 16 }
  let b1 := { b with stats := stats1 }
  let next_write := (b.write_idx + 1) % AUDIO_BUFFER_FRAMES
  if next_write == b.read_idx then
    (false, { b1 with stats := { b1.stats with
        buffer_overruns := (b1.stats.buffer_overruns + 1) % 2 ^ 32,
        frames_dropped := (b1.stats.frames_dropped + 1) % 2 ^ 32 } })
  else
    (true, { b1 with
        frames := b1.frames.set b1.write_idx { fr with valid := true },
        write_idx := next_write,
        stats := { b1.stats with
          frames_written := (b1.stats.frames_written + 1) % 2 ^ 32 } })

/-- `audio_buffer_read(buffer, out_frame)`: the frame copied out (or none). -/
def audio_buffer_read (b : audio_ring_buffer_t) :
    Option audio_frame_t × audio_ring_buffer_t :=
  if b.write_idx == b.read_idx then
    (none, { b with stats := { b.stats with
        buffer_underruns := (b.stats.buffer_underruns + 1) % 2 ^ 32 } })
  else
    let fr := b.frames.getD b.read_idx zero_frame
    (some fr, { b with
        frames := b.frames.set b.read_idx { fr with valid := false },
        read_idx := (b.read_idx + 1) % AUDIO_BUFFER_FRAMES,
        stats := { b.stats with
          frames_read := (b.stats.frames_read + 1) % 2 ^ 32 } })

/-- `audio_buffer_peek(buffer, out_frame)`: read-only. -/
def audio_buffer_peek (b : audio_ring_buffer_t) : Option audio_frame_t :=
  if b.write_idx == b.read_idx then none
  else some (b.frames.getD b.read_idx zero_frame)

/-- `audio_buffer_skip(buffer)`. -/
def audio_buffer_skip (b : audio_ring_buffer_t) : Bool × audio_ring_buffer_t :=
  if b.write_idx == b.read_idx then (false, b)
  else
    let fr := b.frames.getD b.read_idx zero_frame
    (true, { b with
        frames := b.frames.set b.read_idx { fr with valid := false },
        read_idx := (b.read_idx + 1) % AUDIO_BUFFER_FRAMES })

/-- One buffer operation, as issued by the capture/playback sides. -/
inductive AudioBufOp where
  | write (samples : List Nat) (length timestamp now : Nat)
  | writeFrame (fr : audio_frame_t)
  | read
  | peek
  | skip

/-- State transition for one operation (peek does not modify the buffer). -/
def audio_step (b : audio_ring_buffer_t) : AudioBufOp → audio_ring_buffer_t
  | .write samples length timestamp now =>
      (audio_buffer_write b samples length timestamp now).2
  | .writeFrame fr => (audio_buffer_write_frame b fr).2
  | .read => (audio_buffer_read b).2
  | .peek => b
  | .skip => (audio_buffer_skip b).2

/-- The buffer obtained from `audio_buffer_init` by a sequence of operations. -/
def audio_run (ops : List AudioBufOp) : audio_ring_buffer_t :=
  ops.foldl audio_step audio_buffer_init

/-- Structural invariant: both indices below 32, exactly 32 frame slots. -/
def AudioInv (b : audio_ring_buffer_t) : Prop :=
  b.write_idx < AUDIO_BUFFER_FRAMES ∧ b.read_idx < AUDIO_BUFFER_FRAMES ∧
  b.frames.length = AUDIO_BUFFER_FRAMES

lemma audio_step_inv (b : audio_ring_buffer_t) (op : AudioBufOp)
    (h : AudioInv b) : AudioInv (audio_step b op) := by
  obtain ⟨hw, hr, hl⟩ := h
  cases op <;>
    simp only [audio_step, audio_buffer_write, audio_buffer_write_frame,
      audio_buffer_read, audio_buffer_skip, AUDIO_BUFFER_FRAMES] <;>
    (try split_ifs) <;>
    (try simp_all [AudioInv, AUDIO_BUFFER_FRAMES, List.length_set]) <;>
    omega

lemma audio_foldl_inv : ∀ (ops : List AudioBufOp) (b : audio_ring_buffer_t),
    AudioInv b → AudioInv (ops.foldl audio_step b)
  | [], _, h => h
  | op :: ops, b, h => audio_foldl_inv ops _ (audio_step_inv b op h)

lemma audio_buffer_init_inv : AudioInv audio_buffer_init := by
  simp [AudioInv, audio_buffer_init, AUDIO_BUFFER_FRAMES]

lemma audio_run_inv (ops : List AudioBufOp) : AudioInv (audio_run ops) :=
  audio_foldl_inv ops audio_buffer_init audio_buffer_init_inv

/-- C6: in every state reachable from an initialized buffer by
write/write_frame/read/peek/skip: a write (either flavour) on a full buffer
fails and changes neither the stored frames nor the indices; a read on an
empty buffer fails, returns no frame and changes neither the frames nor the
indices; the count is at most N−1 = 31; empty holds iff the indices are
equal, and full holds iff the incremented write index wraps onto the read
index. -/
theorem audio_buffer_reachable_invariants (ops : List AudioBufOp)
    (samples : List Nat) (length timestamp now : Nat) (fr : audio_frame_t) :
    (audio_buffer_is_full (audio_run ops) = true →
      (audio_buffer_write (audio_run ops) samples length timestamp now).1 = false ∧
      (audio_buffer_write (audio_run ops) samples length timestamp now).2.frames
        = (audio_run ops).frames ∧
      (audio_buffer_write (audio_run ops) samples length timestamp now).2.write_idx
        = (audio_run ops).write_idx ∧
      (audio_buffer_write (audio_run ops) samples length timestamp now).2.read_idx
        = (audio_run ops).read_idx ∧
      (audio_buffer_write_frame (audio_run ops) fr).1 = false ∧
      (audio_buffer_write_frame (audio_run ops) fr).2.frames = (audio_run ops).frames ∧
      (audio_buffer_write_frame (audio_run ops) fr).2.write_idx = (audio_run ops).write_idx ∧
      (audio_buffer_write_frame (audio_run ops) fr).2.read_idx = (audio_run ops).read_idx) ∧
    (audio_buffer_is_empty (audio_run ops) = true →
      (audio_buffer_read (audio_run ops)).1 = none ∧
      (audio_buffer_read (audio_run ops)).2.frames = (audio_run ops).frames ∧
      (audio_buffer_read (audio_run ops)).2.write_idx = (audio_run ops).write_idx ∧
      (audio_buffer_read (audio_run ops)).2.read_idx = (audio_run ops).read_idx) ∧
    audio_buffer_count (audio_run ops) ≤ AUDIO_BUFFER_FRAMES - 1 ∧
    (audio_buffer_is_empty (audio_run ops) = true ↔
      (audio_run ops).write_idx = (audio_run ops).read_idx) ∧
    (audio_buffer_is_full (audio_run ops) = true ↔
      ((audio_run ops).write_idx + 1) % AUDIO_BUFFER_FRAMES = (audio_run ops).read_idx) := by
  obtain ⟨hw, hr, -⟩ := audio_run_inv ops
  refine ⟨?_, ?_, ?_, ?_, ?_⟩
  · intro hfull
    rw [audio_buffer_is_full, beq_iff_eq] at hfull
    simp [audio_buffer_write, audio_buffer_write_frame, hfull]
  · intro hempty
    rw [audio_buffer_is_empty, beq_iff_eq] at hempty
    simp [audio_buffer_read, hempty]
  · rw [audio_buffer_count]
    rw [AUDIO_BUFFER_FRAMES] at *
    split_ifs <;> omega
  · rw [audio_buffer_is_empty, beq_iff_eq]
  · rw [audio_buffer_is_full, beq_iff_eq]

/-- C7 counterexample: at expected = 1, received = 0 the computed gap is
65535, but the claimed wraparound formula (2¹⁶ − expected) + received + 1
gives 65536; the code uses 0xFFFF = 2¹⁶ − 1, not 2¹⁶. -/
theorem sequence_gap_formula_off_by_one :
    audio_buffer_sequence_gap 1 0 = 65535 ∧
    audio_buffer_sequence_gap 1 0 ≠ (2 ^ 16 - 1) + 0 + 1 := by
  decide

/-- C7 (amended): for 16-bit sequence numbers the gap equals
(received − expected) mod 2¹⁶, and in the wraparound case (received <
expected) it equals (2¹⁶ − 1 − expected) + received + 1. -/
theorem sequence_gap_mod_2_16 (expected received : Nat)
    (he : expected < 2 ^ 16) (hr : received < 2 ^ 16) :
    audio_buffer_sequence_gap expected received
      = (received + 2 ^ 16 - expected) % 2 ^ 16 ∧
    (received < expected →
      audio_buffer_sequence_gap expected received
        = (2 ^ 16 - 1 - expected) + received + 1) := by
  rw [audio_buffer_sequence_gap]
  split_ifs with h
  · constructor
    · have h1 : received + 2 ^ 16 - expected = (received - expected) + 2 ^ 16 := by omega
      rw [h1, Nat.add_mod_right, Nat.mod_eq_of_lt (by omega)]
    · omega
  · constructor
    · rw [Nat.mod_eq_of_lt (by omega)]
      omega
    · intro
      omega

/-- Witness for the sequence-gap characterization at expected = 1,
received = 0 (the wraparound case). -/
theorem sequence_gap_mod_2_16_witness :
    (1 : Nat) < 2 ^ 16 ∧ (0 : Nat) < 2 ^ 16 ∧
    (audio_buffer_sequence_gap 1 0 = (0 + 2 ^ 16 - 1) % 2 ^ 16 ∧
     (0 < 1 → audio_buffer_sequence_gap 1 0 = (2 ^ 16 - 1 - 1) + 0 + 1)) :=
  ⟨by norm_num, by norm_num, sequence_gap_mod_2_16 1 0 (by norm_num) (by norm_num)⟩

/-! ## Device-id derivation (src/core/device_state.c) -/

def DEVICE_ID_STRING_SIZE : Nat := 8

/-- `'0' + d` for a decimal digit. -/
def digitChar (d : Nat) : Char := Char.ofNat (48 + d)

/-- `snprintf(output, 9, "%08u", value)` for `value < 10^8`: exactly the
eight zero-padded decimal digits (the caller always passes
`value = x % 90000000 + 10000000 < 10^8`). -/
def format_08u (n : Nat) : List Char :=
  [digitChar (n / 10000000 % 10), digitChar (n / 1000000 % 10),
   digitChar (n / 100000 % 10), digitChar (n / 10000 % 10),
   digitChar (n / 1000 % 10), digitChar (n / 100 % 10),
   digitChar (n / 10 % 10), digitChar (n % 10)]

/-- The uint32 fold `value = (value << 8) | hash[i]` over the first four
digest bytes (big-endian), then the reduction into [10000000, 99999999].
`hash` is the SHA-256 digest of the raw id bytes. -/
def device_id_value (hash : List Nat) : Nat :=
  let v0 : Nat := 0
  let v1 := ((v0 <<< 8) ||| byteAt hash 0) % 2 ^ 32
  let v2 := ((v1 <<< 8) ||| byteAt hash 1) % 2 ^ 32
  let v3 := ((v2 <<< 8) ||| byteAt hash 2) % 2 ^ 32
  let v4 := ((v3 <<< 8) ||| byteAt hash 3) % 2 ^ 32
  v4 % 90000000 + 10000000

/-- `device_id_raw_to_string(raw, raw_size, output)`.
Modelled from the spec: `compute_sha256` delegates to the mbedtls SHA-256
primitive, which is an external library not part of this repository; its
digest is therefore passed in as the abstract byte list `hash`, and the
properties below are proved for *every* digest.  An empty raw source yields
the empty string (the early-out in the source). -/
def device_id_raw_to_string (raw hash : List Nat) : List Char :=
  if raw.length = 0 then []
  else format_08u (device_id_value hash)

/-- `device_id_validate_format(id)`: exactly 8 characters, all decimal. -/
def device_id_validate_format (id : List Char) : Bool :=
  id.length == DEVICE_ID_STRING_SIZE && id.all (fun c => c.isDigit)

lemma digitChar_isDigit (d : Nat) (h : d < 10) : (digitChar d).isDigit = true := by
  interval_cases d <;> decide

/-- C8: for every non-empty raw source and every digest, the derived id value
lies in [10000000, 99999999], and the rendered 8-digit string passes
`device_id_validate_format`. -/
theorem device_id_raw_to_string_valid (raw hash : List Nat) (hraw : raw ≠ []) :
    10000000 ≤ device_id_value hash ∧ device_id_value hash ≤ 99999999 ∧
    device_id_validate_format (device_id_raw_to_string raw hash) = true := by
  refine ⟨?_, ?_, ?_⟩
  · rw [device_id_value]
    omega
  · rw [device_id_value]
    omega
  · rw [device_id_raw_to_string, if_neg (by simpa using hraw)]
    rw [device_id_validate_format, format_08u]
    simp only [List.all_cons, List.all_nil, Bool.and_true, Bool.and_eq_true,
      beq_iff_eq, List.length_cons, List.length_nil]
    refine ⟨by rw [DEVICE_ID_STRING_SIZE], ?_, ?_, ?_, ?_, ?_, ?_, ?_, ?_⟩ <;>
      exact digitChar_isDigit _ (Nat.mod_lt _ (by norm_num))

/-- Witness for the device-id derivation property: raw source `[0xDE]`,
all-zero digest.  The derived value is 10000000 and the rendered string
"10000000" validates. -/
theorem device_id_raw_to_string_valid_witness :
    ([0xDE] : List Nat) ≠ [] ∧
    (10000000 ≤ device_id_value [] ∧ device_id_value [] ≤ 99999999 ∧
     device_id_validate_format (device_id_raw_to_string [0xDE] []) = true) :=
  ⟨by decide, device_id_raw_to_string_valid [0xDE] [] (by decide)⟩

/-! ## Dial manager (core/dial_manager.h, dial_manager.c)

The simulator (non-ESP32) code path is embedded: thread creation marks the
slot connected immediately and stores a non-null handle; NVS persistence is
a no-op.  The ESP32 path differs only in running the connection body on a
FreeRTOS task. -/

def DIAL_POSITIONS : Nat := 15
def MAX_DIAL_THREADS : Nat := 15

inductive dial_slot_state_t where
  | empty | saved | connecting | connected | error
deriving DecidableEq

inductive dial_connection_type_t where
  | device | frequency
deriving DecidableEq

/-- `dial_slot_t`.  `task_handle` is a pointer in C; only its nullness is
observable, so it is modelled as a `Bool` (true = non-null). -/
structure dial_slot_t where
  is_configured : Bool
  conn_type : dial_connection_type_t
  code : List Char
  name : List Char
  password : List Char
  state : dial_slot_state_t
  is_muted : Bool
  is_active_audio : Bool
  is_admin : Bool
  member_count : Nat
  task_handle : Bool
  connect_time : Nat
  bytes_sent : Nat
  bytes_received : Nat
  signal_strength : Int
deriving DecidableEq

/-- A `memset`-zeroed slot with state EMPTY. -/
def empty_slot : dial_slot_t :=
  ⟨false, .device, [], [], [], .empty, false, false, false, 0, false, 0, 0, 0, 0⟩

/-- `dial_manager_t`: 15 slots, cursor, active worker count. -/
structure dial_manager_t where
  slots : List dial_slot_t
  current_position : Nat
  active_threads : Nat
deriving DecidableEq

/-- `dm->slots[i]`. -/
def slotAt (dm : dial_manager_t) (i : Nat) : dial_slot_t :=
  dm.slots.getD i empty_slot

/-- `dm->slots[i] = s`. -/
def setSlot (dm : dial_manager_t) (i : Nat) (s : dial_slot_t) : dial_manager_t :=
  { dm with slots := dm.slots.set i s }

/-- `dial_manager_init` (NVS load is a no-op in the simulator). -/
def dial_manager_init : dial_manager_t :=
  ⟨List.replicate DIAL_POSITIONS empty_slot, 0, 0⟩

/-- `destroy_connection_thread(dm, position)`: clears the handle and the
active-audio flag, decrements the worker count (floored at 0). -/
def destroy_connection_thread (dm : dial_manager_t) (position : Nat) :
    dial_manager_t :=
  let slot := slotAt dm position
  if slot.task_handle = false then dm
  else
    let dm1 := setSlot dm position { slot with task_handle := false, is_active_audio := false }
    { dm1 with active_threads := if 0 < dm.active_threads
        then dm.active_threads - 1 else dm.active_threads }

/-- `create_connection_thread(dm, position)` (simulator path): the slot is
marked CONNECTING, then immediately CONNECTED with a non-null handle, and
the worker count is incremented (uint8). -/
def create_connection_thread (dm : dial_manager_t) (position : Nat) :
    Bool × dial_manager_t :=
  let slot := slotAt dm position
  let dm1 := setSlot dm position { slot with state := .connected, task_handle := true }
  (true, { dm1 with active_threads := (dm.active_threads + 1) % 2 ^ 8 })

/-- `dial_manager_connect(dm, position)`. -/
def dial_manager_connect (dm : dial_manager_t) (position : Nat) :
    Bool × dial_manager_t :=
  if DIAL_POSITIONS ≤ position then (false, dm)
  else
    let slot := slotAt dm position
    if slot.is_configured = false then (false, dm)
    else if slot.state = .connected then (true, dm)
    else if MAX_DIAL_THREADS ≤ dm.active_threads then (false, dm)
    else create_connection_thread dm position

/-- `dial_manager_disconnect(dm, position)`. -/
def dial_manager_disconnect (dm : dial_manager_t) (position : Nat) :
    Bool × dial_manager_t :=
  if DIAL_POSITIONS ≤ position then (false, dm)
  else if (slotAt dm position).task_handle = false then (true, dm)
  else
    let dm1 := destroy_connection_thread dm position
    let slot1 := slotAt dm1 position
    let slot2 := if slot1.is_configured
                 then { slot1 with state := .saved }
                 else { slot1 with state := .empty }
    (true, setSlot dm1 position slot2)

/-- `dial_manager_disconnect_all(dm)`. -/
def dial_manager_disconnect_all (dm : dial_manager_t) : dial_manager_t :=
  (List.range DIAL_POSITIONS).foldl (fun d i => (dial_manager_disconnect d i).2) dm

/-- The loop `for i: slots[i].is_active_audio = (i == position)`,
with `j` the index of the list head. -/
def set_audio_flags (position : Nat) : Nat → List dial_slot_t → List dial_slot_t
  | _, [] => []
  | j, s :: rest =>
      { s with is_active_audio := j == position } :: set_audio_flags position (j + 1) rest

/-- `dial_manager_set_active_audio(dm, position)`. -/
def dial_manager_set_active_audio (dm : dial_manager_t) (position : Nat) :
    Bool × dial_manager_t :=
  if DIAL_POSITIONS ≤ position then (false, dm)
  else (true, { dm with slots := set_audio_flags position 0 dm.slots })

/-- `dial_manager_set_position(dm, position)`: moves the cursor and, if the
slot at the new position is connected, transfers audio focus there. -/
def dial_manager_set_position (dm : dial_manager_t) (position : Nat) :
    Bool × dial_manager_t :=
  if DIAL_POSITIONS ≤ position then (false, dm)
  else
    let dm1 := { dm with current_position := position }
    if (slotAt dm1 position).state = .connected
    then (true, (dial_manager_set_active_audio dm1 position).2)
    else (true, dm1)

/-- Two's-complement wrap of an `int8_t` value. -/
def int8_wrap (x : Int) : Int := (x + 128) % 256 - 128

/-- `dial_manager_rotate(dm, direction)`: int8 cursor arithmetic with a
single wrap to 14 (below 0) or 0 (at or above 15), then `set_position`. -/
def dial_manager_rotate (dm : dial_manager_t) (direction : Int) :
    Nat × dial_manager_t :=
  let new_pos0 : Int := int8_wrap ((dm.current_position : Int) + int8_wrap direction)
  let new_pos1 : Int := if new_pos0 < 0 then (DIAL_POSITIONS : Int) - 1 else new_pos0
  let new_pos2 : Int := if (DIAL_POSITIONS : Int) ≤ new_pos1 then 0 else new_pos1
  let dm1 := (dial_manager_set_position dm new_pos2.toNat).2
  (dm1.current_position, dm1)

/-- `snprintf(slot->name, 16, "Slot %d", position + 1)`. -/
def slot_default_name (position : Nat) : List Char :=
  ['S', 'l', 'o', 't', ' '] ++ Nat.toDigits 10 (position + 1)

/-- `dial_manager_save_slot(dm, position, conn_type, code, name)`:
disconnects a live slot, then stores the configuration and state SAVED. -/
def dial_manager_save_slot (dm : dial_manager_t) (position : Nat)
    (ct : dial_connection_type_t) (code : List Char) (name : Option (List Char)) :
    Bool × dial_manager_t :=
  if DIAL_POSITIONS ≤ position then (false, dm)
  else
    let dm1 := if (slotAt dm position).state = .connected ∨
                  (slotAt dm position).state = .connecting
               then destroy_connection_thread dm position else dm
    let slot := slotAt dm1 position
    let slot' := { slot with
        is_configured := true,
        conn_type := ct,
        code := code.take DEVICE_ID_LENGTH,
        name := match name with
                | some n => n.take 15
                | none => slot_default_name position,
        state := .saved }
    (true, setSlot dm1 position slot')

/-- `dial_manager_clear_slot(dm, position)`: disconnects a live worker and
`memset`s the slot back to EMPTY. -/
def dial_manager_clear_slot (dm : dial_manager_t) (position : Nat) :
    Bool × dial_manager_t :=
  if DIAL_POSITIONS ≤ position then (false, dm)
  else
    let dm1 := if (slotAt dm position).task_handle
               then destroy_connection_thread dm position else dm
    (true, setSlot dm1 position empty_slot)

/-- `dial_manager_set_muted(dm, position, muted)`. -/
def dial_manager_set_muted (dm : dial_manager_t) (position : Nat) (muted : Bool) :
    dial_manager_t :=
  if DIAL_POSITIONS ≤ position then dm
  else setSlot dm position { slotAt dm position with is_muted := muted }

/-- One dial-manager operation. -/
inductive DialOp where
  | setPos (position : Nat)
  | rotate (direction : Int)
  | save (position : Nat) (ct : dial_connection_type_t)
         (code : List Char) (name : Option (List Char))
  | clear (position : Nat)
  | connect (position : Nat)
  | disconnect (position : Nat)
  | disconnectAll
  | setActiveAudio (position : Nat)
  | setMuted (position : Nat) (muted : Bool)

/-- State transition for one operation. -/
def dial_step (dm : dial_manager_t) : DialOp → dial_manager_t
  | .setPos p => (dial_manager_set_position dm p).2
  | .rotate d => (dial_manager_rotate dm d).2
  | .save p ct code name => (dial_manager_save_slot dm p ct code name).2
  | .clear p => (dial_manager_clear_slot dm p).2
  | .connect p => (dial_manager_connect dm p).2
  | .disconnect p => (dial_manager_disconnect dm p).2
  | .disconnectAll => dial_manager_disconnect_all dm
  | .setActiveAudio p => (dial_manager_set_active_audio dm p).2
  | .setMuted p m => dial_manager_set_muted dm p m

/-- The manager obtained from `dial_manager_init` by a sequence of operations. -/
def dial_run (ops : List DialOp) : dial_manager_t :=
  ops.foldl dial_step dial_manager_init

lemma destroy_threads_le (dm : dial_manager_t) (p : Nat) :
    (destroy_connection_thread dm p).active_threads ≤ dm.active_threads := by
  simp only [destroy_connection_thread]
  split_ifs <;> simp [setSlot]

lemma connect_threads_le (dm : dial_manager_t) (p : Nat)
    (h : dm.active_threads ≤ MAX_DIAL_THREADS) :
    (dial_manager_connect dm p).2.active_threads ≤ MAX_DIAL_THREADS := by
  simp only [dial_manager_connect]
  split_ifs with h1 h2 h3 h4 <;> try exact h
  rw [MAX_DIAL_THREADS] at *
  simp [create_connection_thread, setSlot]
  omega

lemma disconnect_threads_le (dm : dial_manager_t) (p : Nat)
    (h : dm.active_threads ≤ MAX_DIAL_THREADS) :
    (dial_manager_disconnect dm p).2.active_threads ≤ MAX_DIAL_THREADS := by
  simp only [dial_manager_disconnect]
  split_ifs <;>
    first
      | exact h
      | (have hd := destroy_threads_le dm p; simp [setSlot]; omega)

lemma disconnect_all_threads_le (dm : dial_manager_t)
    (h : dm.active_threads ≤ MAX_DIAL_THREADS) :
    (dial_manager_disconnect_all dm).active_threads ≤ MAX_DIAL_THREADS := by
  rw [dial_manager_disconnect_all]
  generalize List.range DIAL_POSITIONS = l
  induction l generalizing dm with
  | nil => exact h
  | cons i l ih => exact ih _ (disconnect_threads_le dm i h)

lemma save_threads_le (dm : dial_manager_t) (p : Nat)
    (ct : dial_connection_type_t) (code : List Char) (name : Option (List Char))
    (h : dm.active_threads ≤ MAX_DIAL_THREADS) :
    (dial_manager_save_slot dm p ct code name).2.active_threads ≤ MAX_DIAL_THREADS := by
  simp only [dial_manager_save_slot]
  split_ifs <;>
    first
      | exact h
      | (have hd := destroy_threads_le dm p; simp [setSlot]; omega)

lemma clear_threads_le (dm : dial_manager_t) (p : Nat)
    (h : dm.active_threads ≤ MAX_DIAL_THREADS) :
    (dial_manager_clear_slot dm p).2.active_threads ≤ MAX_DIAL_THREADS := by
  simp only [dial_manager_clear_slot]
  split_ifs <;>
    first
      | exact h
      | (have hd := destroy_threads_le dm p; simp [setSlot]; omega)

lemma set_position_threads_eq (dm : dial_manager_t) (p : Nat) :
    (dial_manager_set_position dm p).2.active_threads = dm.active_threads := by
  simp only [dial_manager_set_position, dial_manager_set_active_audio]
  split_ifs <;> rfl

lemma dial_step_threads_le (dm : dial_manager_t) (op : DialOp)
    (h : dm.active_threads ≤ MAX_DIAL_THREADS) :
    (dial_step dm op).active_threads ≤ MAX_DIAL_THREADS := by
  cases op with
  | setPos p => rw [dial_step, set_position_threads_eq]; exact h
  | rotate d =>
      rw [dial_step, dial_manager_rotate]
      rw [set_position_threads_eq]
      exact h
  | save p ct code name => exact save_threads_le dm p ct code name h
  | clear p => exact clear_threads_le dm p h
  | connect p => exact connect_threads_le dm p h
  | disconnect p => exact disconnect_threads_le dm p h
  | disconnectAll => exact disconnect_all_threads_le dm h
  | setActiveAudio p =>
      rw [dial_step]
      simp only [dial_manager_set_active_audio]
      split_ifs <;> exact h
  | setMuted p m =>
      rw [dial_step]
      simp only [dial_manager_set_muted]
      split_ifs <;> exact h

lemma dial_run_threads_le (ops : List DialOp) :
    (dial_run ops).active_threads ≤ MAX_DIAL_THREADS := by
  rw [dial_run]
  have h0 : dial_manager_init.active_threads ≤ MAX_DIAL_THREADS := by
    simp [dial_manager_init, MAX_DIAL_THREADS]
  generalize dial_manager_init = dm at h0 ⊢
  induction ops generalizing dm with
  | nil => exact h0
  | cons op ops ih => exact ih _ (dial_step_threads_le dm op h0)

lemma connect_unconfigured (dm : dial_manager_t) (p : Nat)
    (h : (slotAt dm p).is_configured = false) :
    dial_manager_connect dm p = (false, dm) := by
  simp only [dial_manager_connect]
  split_ifs <;> simp_all

lemma connect_slot_limit (dm : dial_manager_t) (p : Nat)
    (_hp : p < DIAL_POSITIONS) (hc : (slotAt dm p).is_configured = true)
    (hs : (slotAt dm p).state ≠ .connected)
    (ha : MAX_DIAL_THREADS ≤ dm.active_threads) :
    dial_manager_connect dm p = (false, dm) := by
  simp only [dial_manager_connect]
  split_ifs <;> simp_all

/-- C9 (amended): `active_workers` never exceeds 15 in any state reachable
by dial-manager operations; `connect` on an unconfigured slot is refused
without change; and the slot-limit branch refuses `connect` exactly on a
configured, non-connected slot when 15 workers are already active.  (After
15 successful connects all 15 slots are connected, so an actual 16th
connect returns success-without-effect; see the counterexample.) -/
theorem dial_manager_connect_limit :
    (∀ ops : List DialOp, (dial_run ops).active_threads ≤ MAX_DIAL_THREADS) ∧
    (∀ (dm : dial_manager_t) (p : Nat), (slotAt dm p).is_configured = false →
      dial_manager_connect dm p = (false, dm)) ∧
    (∀ (dm : dial_manager_t) (p : Nat), p < DIAL_POSITIONS →
      (slotAt dm p).is_configured = true →
      (slotAt dm p).state ≠ .connected →
      MAX_DIAL_THREADS ≤ dm.active_threads →
      dial_manager_connect dm p = (false, dm)) :=
  ⟨dial_run_threads_le, connect_unconfigured, connect_slot_limit⟩

set_option maxRecDepth 100000 in
/-- C9 counterexample: starting from an initialized manager, configure all
15 slots and connect all 15 (each succeeds; `active_workers` = 15).  Every
slot is then CONNECTED, so no "configured non-connected" slot remains for a
16th connect, and a 16th connect call (slot 0) returns success with the
manager unchanged — not the slot-limit error the claim describes. -/
theorem dial_sixteenth_connect_returns_true :
    (dial_run ((List.range 15).map (fun i => DialOp.save i .device ['0'] none)
        ++ (List.range 15).map DialOp.connect)).active_threads = 15 ∧
    (∀ j ∈ List.range 15,
      (slotAt (dial_run ((List.range 15).map (fun i => DialOp.save i .device ['0'] none)
        ++ (List.range 15).map DialOp.connect)) j).state = .connected) ∧
    dial_manager_connect
      (dial_run ((List.range 15).map (fun i => DialOp.save i .device ['0'] none)
        ++ (List.range 15).map DialOp.connect)) 0
      = (true, dial_run ((List.range 15).map (fun i => DialOp.save i .device ['0'] none)
        ++ (List.range 15).map DialOp.connect)) := by
  decide

lemma list_getD_set_eq {α : Type} (d a : α) :
    ∀ (l : List α) (i : Nat), i < l.length → (l.set i a).getD i d = a
  | [], i, h => absurd h (by simp)
  | _ :: _, 0, _ => rfl
  | _ :: l, i + 1, h => list_getD_set_eq d a l i (by simpa using h)

lemma list_getD_set_ne {α : Type} (d a : α) :
    ∀ (l : List α) (i j : Nat), i ≠ j → (l.set i a).getD j d = l.getD j d
  | [], _, _, _ => by simp
  | _ :: _, 0, 0, h => absurd rfl h
  | _ :: _, 0, _ + 1, _ => rfl
  | _ :: _, _ + 1, 0, _ => rfl
  | _ :: l, i + 1, j + 1, h =>
      list_getD_set_ne d a l i j (fun hij => h (by rw [hij]))

lemma set_audio_flags_length (p : Nat) :
    ∀ (j : Nat) (l : List dial_slot_t), (set_audio_flags p j l).length = l.length
  | _, [] => rfl
  | j, _ :: l => by simp [set_audio_flags, set_audio_flags_length p (j + 1) l]

lemma set_audio_flags_getD (p : Nat) :
    ∀ (j : Nat) (l : List dial_slot_t) (k : Nat), k < l.length →
      (set_audio_flags p j l).getD k empty_slot
        = { l.getD k empty_slot with is_active_audio := (j + k) == p }
  | _, [], k, h => absurd h (by simp)
  | j, s :: l, 0, _ => by simp [set_audio_flags]
  | j, s :: l, k + 1, h => by
      have ih := set_audio_flags_getD p (j + 1) l k (by simpa using h)
      simp only [set_audio_flags, List.getD_cons_succ, ih]
      have : j + 1 + k = j + (k + 1) := by omega
      rw [this]

/-- At most one slot has `is_active_audio` set. -/
def at_most_one_active (dm : dial_manager_t) : Prop :=
  ∀ j k, j < dm.slots.length → k < dm.slots.length →
    (slotAt dm j).is_active_audio = true → (slotAt dm k).is_active_audio = true →
    j = k

lemma setSlot_slots (dm : dial_manager_t) (p : Nat) (s : dial_slot_t) :
    (setSlot dm p s).slots = dm.slots.set p s := rfl

/-- Updating one slot with a new value whose audio flag implies the old
slot's flag preserves uniqueness of the active-audio slot. -/
lemma at_most_one_setSlot (dm : dial_manager_t) (p : Nat) (s : dial_slot_t)
    (hflag : s.is_active_audio = true → (slotAt dm p).is_active_audio = true)
    (h : at_most_one_active dm) : at_most_one_active (setSlot dm p s) := by
  intro j k hj hk haj hak
  rw [setSlot_slots, List.length_set] at hj hk
  rw [slotAt, setSlot_slots] at haj hak
  by_cases hpj : p = j <;> by_cases hpk : p = k
  · omega
  · rw [← hpj, list_getD_set_eq _ _ _ _ (by omega)] at haj
    rw [list_getD_set_ne _ _ _ _ _ hpk] at hak
    exact absurd (h p k (by omega) hk (hflag haj) hak) hpk
  · rw [list_getD_set_ne _ _ _ _ _ hpj] at haj
    rw [← hpk, list_getD_set_eq _ _ _ _ (by omega)] at hak
    exact absurd (h j p hj (by omega) haj (hflag hak)).symm hpj
  · rw [list_getD_set_ne _ _ _ _ _ hpj] at haj
    rw [list_getD_set_ne _ _ _ _ _ hpk] at hak
    exact h j k hj hk haj hak

/-- Record updates that do not touch the slot list trivially preserve the
invariant; stated for the two updates the code performs. -/
lemma at_most_one_threads_update (dm : dial_manager_t) (n : Nat)
    (h : at_most_one_active dm) :
    at_most_one_active { dm with active_threads := n } := h

lemma at_most_one_cursor_update (dm : dial_manager_t) (n : Nat)
    (h : at_most_one_active dm) :
    at_most_one_active { dm with current_position := n } := h

/-- After the `set_active_audio` flag loop, slot `p` is the only candidate. -/
lemma at_most_one_after_flags (dm : dial_manager_t) (p : Nat) :
    at_most_one_active { dm with slots := set_audio_flags p 0 dm.slots } := by
  intro j k hj hk haj hak
  simp only [set_audio_flags_length] at hj hk
  rw [slotAt] at haj hak
  simp only at haj hak
  rw [set_audio_flags_getD p 0 dm.slots j hj] at haj
  rw [set_audio_flags_getD p 0 dm.slots k hk] at hak
  simp only [beq_iff_eq, Nat.zero_add] at haj hak
  have h1 : j = p := by
    by_contra hne
    simp [hne] at haj
  have h2 : k = p := by
    by_contra hne
    simp [hne] at hak
  omega

lemma at_most_one_destroy (dm : dial_manager_t) (p : Nat)
    (h : at_most_one_active dm) :
    at_most_one_active (destroy_connection_thread dm p) := by
  simp only [destroy_connection_thread]
  split_ifs <;>
    first
      | exact h
      | exact at_most_one_threads_update _ _ (at_most_one_setSlot dm p _ (by simp) h)

lemma at_most_one_create (dm : dial_manager_t) (p : Nat)
    (h : at_most_one_active dm) :
    at_most_one_active (create_connection_thread dm p).2 :=
  at_most_one_threads_update _ _ (at_most_one_setSlot dm p _ (fun hf => hf) h)

lemma at_most_one_connect (dm : dial_manager_t) (p : Nat)
    (h : at_most_one_active dm) :
    at_most_one_active (dial_manager_connect dm p).2 := by
  simp only [dial_manager_connect]
  split_ifs <;> first | exact h | exact at_most_one_create dm p h

lemma at_most_one_disconnect (dm : dial_manager_t) (p : Nat)
    (h : at_most_one_active dm) :
    at_most_one_active (dial_manager_disconnect dm p).2 := by
  simp only [dial_manager_disconnect]
  split_ifs <;>
    first
      | exact h
      | exact at_most_one_setSlot _ p _ (fun hf => hf) (at_most_one_destroy dm p h)

lemma at_most_one_disconnect_all (dm : dial_manager_t)
    (h : at_most_one_active dm) :
    at_most_one_active (dial_manager_disconnect_all dm) := by
  rw [dial_manager_disconnect_all]
  generalize List.range DIAL_POSITIONS = l
  induction l generalizing dm with
  | nil => exact h
  | cons i l ih => exact ih _ (at_most_one_disconnect dm i h)

lemma at_most_one_save (dm : dial_manager_t) (p : Nat)
    (ct : dial_connection_type_t) (code : List Char) (name : Option (List Char))
    (h : at_most_one_active dm) :
    at_most_one_active (dial_manager_save_slot dm p ct code name).2 := by
  simp only [dial_manager_save_slot]
  split_ifs <;>
    first
      | exact h
      | exact at_most_one_setSlot _ p _ (fun hf => hf) (at_most_one_destroy dm p h)
      | exact at_most_one_setSlot _ p _ (fun hf => hf) h

lemma at_most_one_clear (dm : dial_manager_t) (p : Nat)
    (h : at_most_one_active dm) :
    at_most_one_active (dial_manager_clear_slot dm p).2 := by
  simp only [dial_manager_clear_slot]
  split_ifs <;>
    first
      | exact h
      | exact at_most_one_setSlot _ p _ (by simp [empty_slot]) (at_most_one_destroy dm p h)
      | exact at_most_one_setSlot _ p _ (by simp [empty_slot]) h

lemma at_most_one_set_active_audio (dm : dial_manager_t) (p : Nat)
    (h : at_most_one_active dm) :
    at_most_one_active (dial_manager_set_active_audio dm p).2 := by
  simp only [dial_manager_set_active_audio]
  split_ifs
  · exact h
  · exact at_most_one_after_flags dm p

lemma at_most_one_set_position (dm : dial_manager_t) (p : Nat)
    (h : at_most_one_active dm) :
    at_most_one_active (dial_manager_set_position dm p).2 := by
  simp only [dial_manager_set_position]
  split_ifs
  · exact h
  · exact at_most_one_set_active_audio _ p (at_most_one_cursor_update dm p h)
  · exact at_most_one_cursor_update dm p h

lemma at_most_one_set_muted (dm : dial_manager_t) (p : Nat) (m : Bool)
    (h : at_most_one_active dm) :
    at_most_one_active (dial_manager_set_muted dm p m) := by
  simp only [dial_manager_set_muted]
  split_ifs
  · exact h
  · exact at_most_one_setSlot dm p _ (fun hf => hf) h

lemma at_most_one_dial_step (dm : dial_manager_t) (op : DialOp)
    (h : at_most_one_active dm) : at_most_one_active (dial_step dm op) := by
  cases op with
  | setPos p => exact at_most_one_set_position dm p h
  | rotate d => exact at_most_one_set_position dm _ h
  | save p ct code name => exact at_most_one_save dm p ct code name h
  | clear p => exact at_most_one_clear dm p h
  | connect p => exact at_most_one_connect dm p h
  | disconnect p => exact at_most_one_disconnect dm p h
  | disconnectAll => exact at_most_one_disconnect_all dm h
  | setActiveAudio p => exact at_most_one_set_active_audio dm p h
  | setMuted p m => exact at_most_one_set_muted dm p m h

lemma at_most_one_init : at_most_one_active dial_manager_init := by
  intro j k hj hk haj hak
  rw [slotAt] at haj
  simp only [dial_manager_init] at haj hj
  rw [List.getD_eq_getElem?_getD] at haj
  simp at hj
  rw [List.getElem?_replicate] at haj
  simp [hj, empty_slot] at haj

lemma at_most_one_dial_run (ops : List DialOp) :
    at_most_one_active (dial_run ops) := by
  rw [dial_run]
  have h0 := at_most_one_init
  generalize dial_manager_init = dm at h0 ⊢
  induction ops generalizing dm with
  | nil => exact h0
  | cons op ops ih => exact ih _ (at_most_one_dial_step dm op h0)

lemma set_active_audio_flags_spec (dm : dial_manager_t) (p : Nat)
    (hlen : dm.slots.length = DIAL_POSITIONS) (hp : p < DIAL_POSITIONS) :
    (slotAt (dial_manager_set_active_audio dm p).2 p).is_active_audio = true ∧
    (∀ j, j < DIAL_POSITIONS → j ≠ p →
      (slotAt (dial_manager_set_active_audio dm p).2 j).is_active_audio = false) := by
  rw [dial_manager_set_active_audio, if_neg (by omega)]
  constructor
  · rw [slotAt]
    simp only
    rw [set_audio_flags_getD p 0 dm.slots p (by omega)]
    simp
  · intro j hj hne
    rw [slotAt]
    simp only
    rw [set_audio_flags_getD p 0 dm.slots j (by omega)]
    simp [hne]

/-- C10: `set_active_audio(i)` sets slot i's audio flag and clears every
other slot's flag; every dial-manager operation preserves the
at-most-one-active-audio invariant, and every state reachable from an
initialized manager satisfies it. -/
theorem dial_manager_single_active_audio :
    (∀ (dm : dial_manager_t) (p : Nat), dm.slots.length = DIAL_POSITIONS →
      p < DIAL_POSITIONS →
      (slotAt (dial_manager_set_active_audio dm p).2 p).is_active_audio = true ∧
      (∀ j, j < DIAL_POSITIONS → j ≠ p →
        (slotAt (dial_manager_set_active_audio dm p).2 j).is_active_audio = false)) ∧
    (∀ (dm : dial_manager_t) (op : DialOp), at_most_one_active dm →
      at_most_one_active (dial_step dm op)) ∧
    (∀ ops : List DialOp, at_most_one_active (dial_run ops)) :=
  ⟨set_active_audio_flags_spec, at_most_one_dial_step, at_most_one_dial_run⟩

end WalkieTalkie
